import Mathlib

/-!
# Verification of the GoShield ride-safety assessment pipeline

Shallow embedding of the core decision logic of the `ai-service` repository:
risk aggregation (`app/services/risk_assessment.py`), threat scoring and
evidence-kit synthesis (`app/services/qwen_service.py`), transcription result
handling (`app/services/speech_service.py`), audio normalization and format
gating (`app/utils/audio_utils.py`), and the endpoint glue (`app/main.py`).

Numeric scores are embedded as exact rationals (the source formulas are
real-number formulas evaluated in IEEE doubles; the spec states them exactly).
External service calls are embedded as explicit outcome parameters: a value of
an outcome type stands for what the upstream call produced, and the embedded
function is the total function the Python code computes on that outcome
(`try/except` blocks become case analysis on the outcome).
-/

set_option autoImplicit false

namespace GoShield

/-- Python `str.lower()`: lowercase every character. -/
def pyLower (s : String) : String :=
  String.mk (s.toList.map Char.toLower)

/-- Python `str.strip()`: drop leading and trailing whitespace. -/
def pyStrip (s : String) : String :=
  String.mk (((s.toList.dropWhile Char.isWhitespace).reverse.dropWhile
    Char.isWhitespace).reverse)

/-! ## Risk aggregation (`app/services/risk_assessment.py`) -/

/-- `RiskLevel` enumeration from `app/models/response_models.py`. -/
inductive RiskLevel where
  | low
  | medium
  | high
deriving DecidableEq, Repr

/-- Default of `settings.LOW_RISK_THRESHOLD` (`app/config.py`, env default `"39"`). -/
def LOW_RISK_THRESHOLD : ℚ := 39

/-- Default of `settings.MEDIUM_RISK_THRESHOLD` (`app/config.py`, env default `"69"`). -/
def MEDIUM_RISK_THRESHOLD : ℚ := 69

/-- `RiskAssessmentService.calculate_overall_risk`: weighted sum of the three
input scores followed by threshold classification. -/
def calculate_overall_risk (threat_text_score location_risk driver_history : ℚ) :
    ℚ × RiskLevel :=
  let overall_score :=
    threat_text_score * 0.6 + location_risk * 0.25 + driver_history * 0.15
  let risk_level :=
    if overall_score ≤ LOW_RISK_THRESHOLD then RiskLevel.low
    else if overall_score ≤ MEDIUM_RISK_THRESHOLD then RiskLevel.medium
    else RiskLevel.high
  (overall_score, risk_level)

/-- `RiskAssessmentService.get_push_notification_message`: `messages.get(risk_level, "")`. -/
def get_push_notification_message : RiskLevel → String
  | RiskLevel.medium =>
      "We see your risk is at medium level, help me to confirm this by giving yes/no"
  | RiskLevel.high =>
      "We see your risk is at high level, help me to confirm this by giving yes/no"
  | RiskLevel.low => ""

/-- Step 6 of `assess_audio_risk` (`app/main.py` lines 94-96):
`action_required = risk_level in [MEDIUM, HIGH]` and
`push_notification = get_push_notification_message(risk_level) if action_required else None`. -/
def determine_actions (risk_level : RiskLevel) : Bool × Option String :=
  let action_required := risk_level = RiskLevel.medium ∨ risk_level = RiskLevel.high
  (decide action_required,
   if action_required then some (get_push_notification_message risk_level) else none)

/-! ## Threat scoring (`QwenService.assess_threat_level`) -/

/-- The `"threat_score"` entry of the parsed upstream payload, as the Python
code observes it: absent (`result.get` falls back to `0`), a value `float()`
parses to a number, or a value `float()` raises on. -/
inductive ThreatField where
  | absent
  | numeric (q : ℚ)
  | unparseable
deriving DecidableEq, Repr

/-- Outcome of one chat-completions call as the caller observes it: `failure`
for any raised exception (network error, API error, `json.loads` failure),
carrying the exception message; `success` with the parsed payload otherwise. -/
inductive ChatOutcome (α : Type) where
  | failure (msg : String)
  | success (payload : α)
deriving DecidableEq, Repr

/-- `QwenService.assess_threat_level`, with the upstream call explicit.
Returns the score together with the number of upstream model calls made.
Guard is `not transcribed_text or len(transcribed_text.strip()) < 5`, which is
equivalent to the stripped length being below 5 (an empty string strips to
length 0). The whole call is wrapped in `try/except` returning `0.0`. -/
def assess_threat_level (transcribed_text : String)
    (upstream : ChatOutcome ThreatField) : ℚ × Nat :=
  if (pyStrip transcribed_text).length < 5 then (0, 0)
  else
    match upstream with
    | ChatOutcome.failure _ => (0, 1)
    | ChatOutcome.success ThreatField.absent => (max 0 (min 100 (0 : ℚ)), 1)
    | ChatOutcome.success (ThreatField.numeric q) => (max 0 (min 100 q), 1)
    | ChatOutcome.success ThreatField.unparseable => (0, 1)

/-- Counting "non-whitespace characters" of a transcript. Modelled from the
spec claim's words ("fewer than 5 non-whitespace characters"), for comparison
with the source's stripped-length guard; interior whitespace does not count
here but does count toward the stripped length. -/
def spec_nonWhitespaceCount (s : String) : Nat :=
  (s.toList.filter (fun c => ¬ c.isWhitespace)).length

/-! ## Transcription (`AlibabaSpeechService.transcribe_audio`) -/

/-- The HTTP response body of the recognition request as `transcribe_audio`
observes it: `parseFail` when `json.loads` raises, otherwise the parsed
object's `"status"` entry (`result.get` gives `None` when absent) and its
`"result"` entry. -/
inductive RecognitionBody where
  | parseFail
  | parsed (status : Option Int) (result : Option String)
deriving DecidableEq, Repr

/-- The observable outcome of the recognition request: `exn` for any exception
raised while preparing or making the request (conversion failure, connection
error), or an HTTP response with a status code and a body. -/
inductive TranscribeOutcome where
  | exn
  | httpResponse (httpStatus : Nat) (body : RecognitionBody)
deriving DecidableEq, Repr

/-- `AlibabaSpeechService.transcribe_audio` response handling: on HTTP 200 and
recognition status `20000000`, return `result.get('result', '')`; on any other
recognition status or HTTP status return `""`; the surrounding `try/except`
returns `""` on any exception (including a JSON parse failure of the body). -/
def transcribe_audio : TranscribeOutcome → String
  | TranscribeOutcome.exn => ""
  | TranscribeOutcome.httpResponse httpStatus body =>
    if httpStatus = 200 then
      match body with
      | RecognitionBody.parseFail => ""
      | RecognitionBody.parsed status result =>
        if status = some 20000000 then result.getD "" else ""
    else ""

/-! ## Audio normalization (`app/utils/audio_utils.py`) -/

/-- The decoded-audio properties `pydub.AudioSegment` exposes and the
normalizer inspects: frame rate (Hz), sample width (bytes), channel count. -/
structure AudioSegment where
  frame_rate : Nat
  sample_width : Nat
  channels : Nat
deriving DecidableEq, Repr

/-- `AudioProcessor.TARGET_SAMPLE_RATE`. -/
def TARGET_SAMPLE_RATE : Nat := 16000

/-- `AudioProcessor.TARGET_SAMPLE_WIDTH` (2 bytes = 16-bit). -/
def TARGET_SAMPLE_WIDTH : Nat := 2

/-- `AudioProcessor.TARGET_CHANNELS` (mono). -/
def TARGET_CHANNELS : Nat := 1

/-- `pydub` `set_frame_rate` as the normalizer uses it: the result's frame
rate is the requested one (resampling of the underlying samples is outside
the inspected properties). -/
def set_frame_rate (a : AudioSegment) (r : Nat) : AudioSegment :=
  { a with frame_rate := r }

/-- `pydub` `set_sample_width`: the result's sample width is the requested one. -/
def set_sample_width (a : AudioSegment) (w : Nat) : AudioSegment :=
  { a with sample_width := w }

/-- `pydub` `set_channels`: the result's channel count is the requested one. -/
def set_channels (a : AudioSegment) (c : Nat) : AudioSegment :=
  { a with channels := c }

/-- `AudioProcessor.needs_conversion` on a decodable input: collect a reason
for every property differing from the target, report whether any reason
exists, and join the reasons (or report `"already_compatible"`). -/
def needs_conversion (audio : AudioSegment) : Bool × String :=
  let reasons : List String :=
    (if audio.frame_rate ≠ TARGET_SAMPLE_RATE then
      ["sample_rate:" ++ toString audio.frame_rate ++ "→" ++ toString TARGET_SAMPLE_RATE]
     else []) ++
    (if audio.sample_width ≠ TARGET_SAMPLE_WIDTH then
      ["bit_depth:" ++ toString (audio.sample_width * 8) ++ "→" ++
        toString (TARGET_SAMPLE_WIDTH * 8)]
     else []) ++
    (if audio.channels ≠ TARGET_CHANNELS then
      ["channels:" ++ toString audio.channels ++ "→" ++ toString TARGET_CHANNELS]
     else [])
  let needs_conv : Bool := decide (reasons.length > 0)
  let reason := if reasons ≠ [] then String.intercalate ", " reasons else "already_compatible"
  (needs_conv, reason)

/-- `AudioProcessor.convert_to_wav` on a decodable input: apply
`set_frame_rate`, `set_sample_width`, `set_channels` in that order, each one
only when the corresponding property differs from the target. -/
def convert_to_wav (input : AudioSegment) : AudioSegment :=
  let a := input
  let a := if a.frame_rate ≠ TARGET_SAMPLE_RATE then set_frame_rate a TARGET_SAMPLE_RATE else a
  let a := if a.sample_width ≠ TARGET_SAMPLE_WIDTH then set_sample_width a TARGET_SAMPLE_WIDTH else a
  let a := if a.channels ≠ TARGET_CHANNELS then set_channels a TARGET_CHANNELS else a
  a

/-- The `alibaba_isi_compatible` property computed by
`AudioProcessor.get_audio_info`: all three canonical-constraint equalities. -/
def alibaba_isi_compatible (a : AudioSegment) : Bool :=
  decide (a.frame_rate = TARGET_SAMPLE_RATE) &&
  decide (a.sample_width = TARGET_SAMPLE_WIDTH) &&
  decide (a.channels = TARGET_CHANNELS)

/-- The normalization step of `transcribe_audio` (`speech_service.py` lines
52-60): convert exactly when `needs_conversion` says so, otherwise keep
processing the original audio unchanged. -/
def normalize (audio : AudioSegment) : AudioSegment :=
  if (needs_conversion audio).1 then convert_to_wav audio else audio

/-! ## Format gate (`AudioProcessor.is_supported_format`, `app/main.py`) -/

/-- `AudioProcessor.SUPPORTED_FORMATS`. -/
def SUPPORTED_FORMATS : List String :=
  [".wav", ".mp3", ".m4a", ".aac", ".flac", ".ogg"]

/-- The extension component of `os.path.splitext` (POSIX): the suffix starting
at the last dot of the basename, provided some earlier character of the
basename is not a dot; otherwise the empty string. -/
def splitext_ext (p : String) : String :=
  let base := ((p.toList.reverse.takeWhile (fun c => c ≠ '/'))).reverse
  match base.reverse.findIdx? (fun c => c = '.') with
  | none => ""
  | some k =>
    let d := base.length - 1 - k
    if (base.take d).any (fun c => c ≠ '.') then String.mk (base.drop d) else ""

/-- `AudioProcessor.is_supported_format`: lowercase the filename, take its
`splitext` extension, and test membership in the allow-list. -/
def is_supported_format (filename : String) : Bool :=
  SUPPORTED_FORMATS.contains (splitext_ext (pyLower filename))

/-- Python `repr` of the `SUPPORTED_FORMATS` list, as interpolated into the
rejection detail string by `app/main.py`. -/
def SUPPORTED_FORMATS_REPR : String :=
  "[\x27.wav\x27, \x27.mp3\x27, \x27.m4a\x27, \x27.aac\x27, \x27.flac\x27, \x27.ogg\x27]"

/-- A raised `HTTPException(status_code, detail)`. -/
structure HTTPExceptionE where
  status_code : Nat
  detail : String
deriving DecidableEq, Repr

/-- `str()` of a starlette `HTTPException`: `"{status_code}: {detail}"`. -/
def str_of_httpexception (e : HTTPExceptionE) : String :=
  toString e.status_code ++ ": " ++ e.detail

/-! ## Evidence kit (`QwenService.create_evidence_kit`) -/

/-- The `incident_classification` object (`response_models.IncidentClassification`
shape, matching the dict keys assembled in `qwen_service.py`). -/
structure IncidentClassification where
  primary_category : String
  secondary_categories : List String
  severity_level : String
  urgency : String
  requires_immediate_action : Bool
deriving DecidableEq, Repr

/-- The parsed classification payload as `create_evidence_kit` observes it:
every field is read with `analysis_result.get(...)`, so every field is
optional. Threat indicators and the detailed analysis are carried opaquely
(the synthesizer never inspects their contents). -/
structure AnalysisResult where
  executive_summary : Option String
  incident_classification : Option IncidentClassification
  threat_indicators : Option (List String)
  detailed_analysis : Option (List (String × String))
  recommended_actions : Option (List String)
  follow_up_required : Option Bool
  confidence_level : Option ℚ
deriving DecidableEq, Repr

/-- A classification payload with every optional field absent. -/
def emptyAnalysisResult : AnalysisResult :=
  { executive_summary := none
    incident_classification := none
    threat_indicators := none
    detailed_analysis := none
    recommended_actions := none
    follow_up_required := none
    confidence_level := none }

/-- The `audio_analysis` object assembled on the success path. -/
structure AudioAnalysis where
  duration_seconds : ℚ
  transcript_length : Nat
  speech_detected : Bool
  processing_quality : String
deriving DecidableEq, Repr

/-- The complete evidence kit assembled on the success path of
`create_evidence_kit` (dict keys of `qwen_service.py` lines 135-165; the
`evidence_details` sub-dict is flattened with an `evidence_details_` prefix). -/
structure EvidenceKit where
  evidence_kit_id : String
  processing_timestamp : String
  ride_details : List (String × String)
  audio_analysis : AudioAnalysis
  executive_summary : String
  incident_classification : IncidentClassification
  evidence_details_full_transcript : String
  evidence_details_threat_indicators : List String
  detailed_analysis : List (String × String)
  recommended_actions : List String
  follow_up_required : Bool
  overall_risk_score : ℚ
  confidence_level : ℚ
deriving DecidableEq, Repr

/-- The basic kit returned by the `except` branch of `create_evidence_kit`
(lines 172-184): exactly the keys that dict carries — in particular no
`incident_classification`, `recommended_actions`, `follow_up_required`,
`confidence_level` or `audio_analysis`. -/
structure ErrorKit where
  evidence_kit_id : String
  processing_timestamp : String
  executive_summary : String
  evidence_details_full_transcript : String
  evidence_details_threat_indicators : List String
  error : String
deriving DecidableEq, Repr

/-- Result of `create_evidence_kit`: a complete kit on success, the basic
error kit when the classification call raised. -/
inductive EvidenceKitResult where
  | complete (kit : EvidenceKit)
  | basicError (kit : ErrorKit)
deriving DecidableEq, Repr

/-- Whether the returned kit carries the classification fields
(`incident_classification`, `recommended_actions`, `follow_up_required`,
`confidence_level`, `audio_analysis`): true exactly for the complete kit,
whose type has those fields; the basic error kit has none of them. -/
def resultHasClassificationFields : EvidenceKitResult → Bool
  | EvidenceKitResult.complete _ => true
  | EvidenceKitResult.basicError _ => false

/-- `QwenService.create_evidence_kit`, with the nondeterministic ingredients
(`uuid.uuid4()`, `datetime.now().isoformat()`) and the classification call
outcome explicit. `risk_overall` models `risk_assessment.get('overall_score', 0)`
and `ride_context` models the `ride_context or {}` default. -/
def create_evidence_kit (kit_id now : String) (transcript_arg : String)
    (audio_duration : ℚ) (risk_overall : Option ℚ)
    (ride_context : Option (List (String × String)))
    (upstream : ChatOutcome AnalysisResult) : EvidenceKitResult :=
  let transcript :=
    if (pyStrip transcript_arg).length < 5 then "[No clear speech detected in audio]"
    else transcript_arg
  match upstream with
  | ChatOutcome.failure e =>
    EvidenceKitResult.basicError
      { evidence_kit_id := kit_id
        processing_timestamp := now
        executive_summary := "Error occurred during analysis processing"
        evidence_details_full_transcript := transcript
        evidence_details_threat_indicators := []
        error := e }
  | ChatOutcome.success analysis_result =>
    EvidenceKitResult.complete
      { evidence_kit_id := kit_id
        processing_timestamp := now
        ride_details := ride_context.getD []
        audio_analysis :=
          { duration_seconds := audio_duration
            transcript_length := transcript.length
            speech_detected := decide ((pyStrip transcript).length > 10)
            processing_quality := if transcript.length > 50 then "good" else "limited" }
        executive_summary :=
          analysis_result.executive_summary.getD "No significant safety concerns detected."
        incident_classification :=
          analysis_result.incident_classification.getD
            { primary_category := "normal_ride"
              secondary_categories := []
              severity_level := "low"
              urgency := "low"
              requires_immediate_action := false }
        evidence_details_full_transcript := transcript
        evidence_details_threat_indicators := analysis_result.threat_indicators.getD []
        detailed_analysis := analysis_result.detailed_analysis.getD []
        recommended_actions :=
          analysis_result.recommended_actions.getD ["No specific actions required"]
        follow_up_required := analysis_result.follow_up_required.getD false
        overall_risk_score := risk_overall.getD 0
        confidence_level := analysis_result.confidence_level.getD 0.8 }

/-! ## The `/api/summarize` endpoint (`app/main.py` `create_evidence_kit`) -/

/-- The transcript substitution at `app/main.py` lines 165-167:
`if not transcribed_text: transcribed_text = "[No clear speech detected in audio file]"`. -/
def summarize_transcript (transcribed_text : String) : String :=
  if transcribed_text = "" then "[No clear speech detected in audio file]"
  else transcribed_text

/-- The body of the `/api/summarize` handler inside its `try` block: reject
unsupported formats by raising `HTTPException(400, ...)`, otherwise substitute
the placeholder for an empty transcript, score it, and assemble the kit with
`overall_score` set to the threat score. No other step of the body raises. -/
def summarize_body (filename kit_id now : String) (audio_duration : ℚ)
    (transcribed_text : String) (threat_upstream : ChatOutcome ThreatField)
    (classify_upstream : ChatOutcome AnalysisResult)
    (ride_context : List (String × String)) :
    Except HTTPExceptionE EvidenceKitResult :=
  if ¬ is_supported_format filename then
    Except.error
      { status_code := 400
        detail := "Unsupported audio format. Supported: " ++ SUPPORTED_FORMATS_REPR }
  else
    let transcribed_text := summarize_transcript transcribed_text
    let threat_score := (assess_threat_level transcribed_text threat_upstream).1
    Except.ok (create_evidence_kit kit_id now transcribed_text audio_duration
      (some threat_score) (some ride_context) classify_upstream)

/-- The observable response of the `/api/summarize` handler. -/
inductive SummarizeResponse where
  | ok (kit : EvidenceKitResult)
  | httpError (status : Nat) (detail : String)
deriving DecidableEq, Repr

/-- The `/api/summarize` handler including its catch-all
`except Exception as e: raise HTTPException(500, f"Evidence kit creation failed: {str(e)}")`.
An `HTTPException` is an `Exception`, so the 400 raised by the format gate is
caught here too and re-raised as a 500 wrapping its `str()`. -/
def summarize_endpoint (filename kit_id now : String) (audio_duration : ℚ)
    (transcribed_text : String) (threat_upstream : ChatOutcome ThreatField)
    (classify_upstream : ChatOutcome AnalysisResult)
    (ride_context : List (String × String)) : SummarizeResponse :=
  match summarize_body filename kit_id now audio_duration transcribed_text
      threat_upstream classify_upstream ride_context with
  | Except.ok kit => SummarizeResponse.ok kit
  | Except.error e =>
    SummarizeResponse.httpError 500
      ("Evidence kit creation failed: " ++ str_of_httpexception e)

end GoShield

namespace GoShield

/-- C1: `calculate_overall_risk` returns the weighted sum
`0.60*threat + 0.25*location + 0.15*driverHistory` and classifies it Low when
the sum is at most 39 (inclusive), Medium when it is above 39 and at most 69
(inclusive), and High when it is above 69. -/
theorem C1_overall_risk_formula_and_thresholds (threat location driverHistory : ℚ) :
    (calculate_overall_risk threat location driverHistory).1 =
        0.60 * threat + 0.25 * location + 0.15 * driverHistory ∧
    ((calculate_overall_risk threat location driverHistory).2 = RiskLevel.low ↔
        (calculate_overall_risk threat location driverHistory).1 ≤ 39) ∧
    ((calculate_overall_risk threat location driverHistory).2 = RiskLevel.medium ↔
        (39 < (calculate_overall_risk threat location driverHistory).1 ∧
         (calculate_overall_risk threat location driverHistory).1 ≤ 69)) ∧
    ((calculate_overall_risk threat location driverHistory).2 = RiskLevel.high ↔
        69 < (calculate_overall_risk threat location driverHistory).1) := by
  unfold calculate_overall_risk LOW_RISK_THRESHOLD MEDIUM_RISK_THRESHOLD
  set s := threat * 0.6 + location * 0.25 + driverHistory * 0.15 with hs
  refine ⟨by rw [hs]; ring, ?_, ?_, ?_⟩ <;>
    rcases le_or_lt s 39 with h1 | h1 <;>
    rcases le_or_lt s 69 with h2 | h2 <;>
    (simp [h1, h2, not_le.mpr, le_of_lt]; try linarith)

/-- C4 counterexample: the transcript `"a b c"` has only 3 non-whitespace
characters, yet `assess_threat_level` does not short-circuit on it: its
stripped length is 5, so an upstream call is made and the parsed score is
returned, contradicting the claim that such transcripts score 0.0 with zero
upstream calls. -/
theorem C4_counterexample :
    spec_nonWhitespaceCount "a b c" < 5 ∧
    assess_threat_level "a b c" (ChatOutcome.success (ThreatField.numeric 50)) ≠ (0, 0) := by
  exact ⟨by decide, by decide⟩

/-- C4 (amended): for every transcript with fewer than 5 characters after
stripping leading and trailing whitespace, `assess_threat_level` returns 0.0
and makes zero upstream model calls. -/
theorem C4_amended_short_transcript_short_circuits (t : String)
    (h : (pyStrip t).length < 5) (u : ChatOutcome ThreatField) :
    assess_threat_level t u = (0, 0) := by
  unfold assess_threat_level
  simp [h]

/-- Witness for C4 (amended) at the transcript `"  hi  "`. -/
theorem C4_amended_short_transcript_short_circuits_witness :
    (pyStrip "  hi  ").length < 5 ∧
    assess_threat_level "  hi  " (ChatOutcome.success (ThreatField.numeric 50)) = (0, 0) :=
  ⟨by decide, C4_amended_short_transcript_short_circuits "  hi  " (by decide)
    (ChatOutcome.success (ThreatField.numeric 50))⟩

/-- The clamp `max(0, min(100, q))` stays inside `[0, 100]`. -/
theorem clamp_bounds (q : ℚ) : 0 ≤ max 0 (min 100 q) ∧ max 0 (min 100 q) ≤ 100 :=
  ⟨le_max_left 0 _, max_le (by norm_num) (min_le_left _ _)⟩

/-- C5: for every transcript and upstream outcome, the threat score lies in
[0, 100]; a call failure yields 0, a missing field yields 0, an unparseable
field yields 0, and a parsed numeric field is clamped into [0, 100]. -/
theorem C5_threat_score_always_clamped (t : String) (u : ChatOutcome ThreatField) :
    0 ≤ (assess_threat_level t u).1 ∧ (assess_threat_level t u).1 ≤ 100 ∧
    (∀ e, u = ChatOutcome.failure e → (assess_threat_level t u).1 = 0) ∧
    (u = ChatOutcome.success ThreatField.absent → (assess_threat_level t u).1 = 0) ∧
    (u = ChatOutcome.success ThreatField.unparseable → (assess_threat_level t u).1 = 0) ∧
    (∀ q, u = ChatOutcome.success (ThreatField.numeric q) → 5 ≤ (pyStrip t).length →
      (assess_threat_level t u).1 = max 0 (min 100 q)) := by
  rcases u with e | payload
  · by_cases h : (pyStrip t).length < 5 <;> simp [assess_threat_level, h]
  · rcases payload with _ | q | _
    · by_cases h : (pyStrip t).length < 5 <;>
        simp [assess_threat_level, h]
    · by_cases h : (pyStrip t).length < 5
      · simp [assess_threat_level, h]
        try omega
      · have hb := clamp_bounds q
        simp [assess_threat_level, h, hb.1, hb.2]
    · by_cases h : (pyStrip t).length < 5 <;> simp [assess_threat_level, h]

/-- Witness for C5 at a concrete transcript and an out-of-range upstream score. -/
theorem C5_threat_score_always_clamped_witness :
    0 ≤ (assess_threat_level "take me somewhere else"
        (ChatOutcome.success (ThreatField.numeric 150))).1 ∧
    (assess_threat_level "take me somewhere else"
        (ChatOutcome.success (ThreatField.numeric 150))).1 ≤ 100 ∧
    (assess_threat_level "take me somewhere else"
        (ChatOutcome.success (ThreatField.numeric 150))).1 = max 0 (min 100 150) :=
  have h := C5_threat_score_always_clamped "take me somewhere else"
    (ChatOutcome.success (ThreatField.numeric 150))
  ⟨h.1, h.2.1, h.2.2.2.2.2 150 rfl (by decide)⟩

/-- C6: every recoverable upstream failure of the transcription call — a
non-200 HTTP status, a recognition status other than 20000000, an empty or
missing result, or any raised exception — makes `transcribe_audio` return the
empty string rather than an error. -/
theorem C6_transcription_failures_yield_empty (httpStatus : Nat)
    (body : RecognitionBody) (status : Option Int) (result : Option String) :
    (httpStatus ≠ 200 →
      transcribe_audio (TranscribeOutcome.httpResponse httpStatus body) = "") ∧
    (status ≠ some 20000000 →
      transcribe_audio
        (TranscribeOutcome.httpResponse 200 (RecognitionBody.parsed status result)) = "") ∧
    transcribe_audio
      (TranscribeOutcome.httpResponse 200
        (RecognitionBody.parsed (some 20000000) (some ""))) = "" ∧
    transcribe_audio
      (TranscribeOutcome.httpResponse 200
        (RecognitionBody.parsed (some 20000000) none)) = "" ∧
    transcribe_audio (TranscribeOutcome.httpResponse 200 RecognitionBody.parseFail) = "" ∧
    transcribe_audio TranscribeOutcome.exn = "" := by
  refine ⟨?_, ?_, rfl, rfl, rfl, rfl⟩
  · intro h
    simp only [transcribe_audio]
    simp [h]
  · intro h
    simp only [transcribe_audio]
    simp [h]

/-- Witness for C6 at an HTTP 404 and at a failing recognition status. -/
theorem C6_transcription_failures_yield_empty_witness :
    transcribe_audio (TranscribeOutcome.httpResponse 404 RecognitionBody.parseFail) = "" ∧
    transcribe_audio
      (TranscribeOutcome.httpResponse 200
        (RecognitionBody.parsed (some 40000000) (some "hello"))) = "" :=
  ⟨(C6_transcription_failures_yield_empty 404 RecognitionBody.parseFail
      (some 40000000) (some "hello")).1 (by decide),
   (C6_transcription_failures_yield_empty 404 RecognitionBody.parseFail
      (some 40000000) (some "hello")).2.1 (by decide)⟩

/-- C7: for every decodable audio input, the audio leaving normalization
satisfies the canonical constraint (16000 Hz, 16-bit, mono); and for every
input already canonical, `needs_conversion` reports `(false,
"already_compatible")` and normalization passes the input through unchanged. -/
theorem C7_normalization_canonical (a : AudioSegment) :
    alibaba_isi_compatible (normalize a) = true ∧
    (alibaba_isi_compatible a = true →
      needs_conversion a = (false, "already_compatible") ∧ normalize a = a) := by
  by_cases h1 : a.frame_rate = TARGET_SAMPLE_RATE <;>
  by_cases h2 : a.sample_width = TARGET_SAMPLE_WIDTH <;>
  by_cases h3 : a.channels = TARGET_CHANNELS <;>
  constructor <;>
  simp [normalize, needs_conversion, convert_to_wav, set_frame_rate, set_sample_width,
    set_channels, alibaba_isi_compatible, h1, h2, h3]

/-- Witness for C7 at already-canonical audio. -/
theorem C7_normalization_canonical_witness :
    alibaba_isi_compatible
      (normalize { frame_rate := 16000, sample_width := 2, channels := 1 }) = true ∧
    needs_conversion { frame_rate := 16000, sample_width := 2, channels := 1 } =
      (false, "already_compatible") ∧
    normalize { frame_rate := 16000, sample_width := 2, channels := 1 } =
      { frame_rate := 16000, sample_width := 2, channels := 1 } :=
  have h := C7_normalization_canonical { frame_rate := 16000, sample_width := 2, channels := 1 }
  have h2 := h.2 (by decide)
  ⟨h.1, h2.1, h2.2⟩

/-- C2 counterexample: when the classification call fails, the kit returned
by `create_evidence_kit` is the basic error kit, which does not carry the
classification fields (`incident_classification`, `recommended_actions`,
`follow_up_required`, `confidence_level`, `audio_analysis`) at all, let alone
at their documented defaults. -/
theorem C2_counterexample :
    resultHasClassificationFields
      (create_evidence_kit "kit-1" "2026-01-01T00:00:00" "driver please stop the car" 10
        (some 50) none (ChatOutcome.failure "connection reset")) = false := by
  rfl

/-- C2 (amended): when the classification call throws, `create_evidence_kit`
still returns (never raises) a well-formed basic kit carrying the id, the
timestamp, the transcript (or its placeholder), an explicit error annotation,
an error-path executive summary and empty threat indicators — but without the
classification fields (`incident_classification`, `recommended_actions`,
`follow_up_required`, `confidence_level`, `audio_analysis`). -/
theorem C2_amended_error_path_basic_kit (kit_id now transcript : String)
    (audio_duration : ℚ) (risk_overall : Option ℚ)
    (ride_context : Option (List (String × String))) (e : String) :
    create_evidence_kit kit_id now transcript audio_duration risk_overall ride_context
        (ChatOutcome.failure e) =
      EvidenceKitResult.basicError
        { evidence_kit_id := kit_id
          processing_timestamp := now
          executive_summary := "Error occurred during analysis processing"
          evidence_details_full_transcript :=
            if (pyStrip transcript).length < 5 then "[No clear speech detected in audio]"
            else transcript
          evidence_details_threat_indicators := []
          error := e } := rfl

/-- C3: when the classification call succeeds but the parsed payload omits
every optional field, `create_evidence_kit` produces a schema-complete kit
whose fields equal the documented defaults. -/
theorem C3_all_fields_absent_yields_documented_defaults (kit_id now transcript : String)
    (audio_duration : ℚ) (risk_overall : Option ℚ)
    (ride_context : Option (List (String × String))) :
    ∃ kit,
      create_evidence_kit kit_id now transcript audio_duration risk_overall ride_context
          (ChatOutcome.success emptyAnalysisResult) = EvidenceKitResult.complete kit ∧
      kit.executive_summary = "No significant safety concerns detected." ∧
      kit.incident_classification =
        { primary_category := "normal_ride"
          secondary_categories := []
          severity_level := "low"
          urgency := "low"
          requires_immediate_action := false } ∧
      kit.evidence_details_threat_indicators = [] ∧
      kit.recommended_actions = ["No specific actions required"] ∧
      kit.follow_up_required = false ∧
      kit.confidence_level = 0.8 :=
  ⟨_, rfl, rfl, rfl, rfl, rfl, rfl, rfl⟩

/-- C8: the format gate inside the handler body does raise a 400
"unsupported format" error before any decoding — but the handler's catch-all
`except Exception` catches that `HTTPException` too, so the user-facing
response for a non-allow-listed extension is an HTTP 500 wrapping the 400
detail, the same status as internal processing failures. Evaluated at the
failing input `"evidence.txt"`. -/
theorem C8_unsupported_format_wrapped_to_500 :
    is_supported_format "evidence.txt" = false ∧
    summarize_body "evidence.txt" "kit-1" "2026-01-01T00:00:00" 10 "hello there"
        (ChatOutcome.failure "x") (ChatOutcome.failure "x") [] =
      Except.error
        { status_code := 400
          detail := "Unsupported audio format. Supported: " ++ SUPPORTED_FORMATS_REPR } ∧
    summarize_endpoint "evidence.txt" "kit-1" "2026-01-01T00:00:00" 10 "hello there"
        (ChatOutcome.failure "x") (ChatOutcome.failure "x") [] =
      SummarizeResponse.httpError 500
        ("Evidence kit creation failed: 400: Unsupported audio format. Supported: " ++
          SUPPORTED_FORMATS_REPR) := by
  refine ⟨by decide, rfl, by decide⟩

/-- C9: `action_required` is true exactly when the risk level is Medium or
High, and the push notification is the fixed level-specific message for
Medium and High and absent for Low. -/
theorem C9_action_required_iff_medium_or_high (risk_level : RiskLevel) :
    ((determine_actions risk_level).1 = true ↔
      risk_level = RiskLevel.medium ∨ risk_level = RiskLevel.high) ∧
    (determine_actions risk_level).2 =
      (match risk_level with
       | RiskLevel.low => none
       | RiskLevel.medium =>
         some "We see your risk is at medium level, help me to confirm this by giving yes/no"
       | RiskLevel.high =>
         some "We see your risk is at high level, help me to confirm this by giving yes/no") := by
  cases risk_level <;> exact ⟨by decide, rfl⟩

/-- C10: when transcription returns an empty string, the `/api/summarize`
handler substitutes the bracketed placeholder before the downstream steps,
and the assembled kit (for any successful classification payload) therefore
reports `audio_analysis.speech_detected = true` — the placeholder's stripped
length exceeds 10 — even though no speech was detected. -/
theorem C10_empty_transcript_placeholder_forces_speech_detected
    (filename kit_id now : String) (audio_duration : ℚ)
    (threat_upstream : ChatOutcome ThreatField) (analysis : AnalysisResult)
    (ride_context : List (String × String))
    (hf : is_supported_format filename = true) :
    summarize_transcript "" = "[No clear speech detected in audio file]" ∧
    ∃ kit,
      summarize_body filename kit_id now audio_duration "" threat_upstream
          (ChatOutcome.success analysis) ride_context =
        Except.ok (EvidenceKitResult.complete kit) ∧
      kit.evidence_details_full_transcript = "[No clear speech detected in audio file]" ∧
      kit.audio_analysis.speech_detected = true := by
  refine ⟨rfl, ?_⟩
  unfold summarize_body
  rw [if_neg (by simp [hf])]
  exact ⟨_, rfl, rfl, rfl⟩

/-- Witness for C10 at the supported filename `"clip.wav"`. -/
theorem C10_empty_transcript_placeholder_forces_speech_detected_witness :
    is_supported_format "clip.wav" = true ∧
    (summarize_transcript "" = "[No clear speech detected in audio file]" ∧
     ∃ kit,
       summarize_body "clip.wav" "kit-1" "2026-01-01T00:00:00" 10 ""
           (ChatOutcome.failure "x") (ChatOutcome.success emptyAnalysisResult) [] =
         Except.ok (EvidenceKitResult.complete kit) ∧
       kit.evidence_details_full_transcript = "[No clear speech detected in audio file]" ∧
       kit.audio_analysis.speech_detected = true) :=
  ⟨by decide,
   C10_empty_transcript_placeholder_forces_speech_detected "clip.wav" "kit-1"
     "2026-01-01T00:00:00" 10 (ChatOutcome.failure "x") emptyAnalysisResult [] (by decide)⟩

end GoShield
